import Mathlib

/-!
Verification of the ARC fragment (arc/main.py and the arc.job.ssh status parser)
against its natural-language specification.

The Python code is shallowly embedded: strings are Lean `String`s (lists of
characters), Python `str.lower()` is modelled per-character for the ASCII
range, Python `str.split('//')`, `str.count('//')`, `str.replace(...)` and
whitespace splitting are modelled by structurally recursive functions on
`List Char` with Python left-to-right non-overlapping semantics, and code
that can raise is modelled in `Except`.
-/

namespace ArcVerify

/-- Python `str.lower()` on a single character, restricted to the ASCII
letters actually occurring in this code base (Python lowercasing is the
identity on every other character appearing here). -/
def pyLowerChar : Char → Char
  | 'A' => 'a' | 'B' => 'b' | 'C' => 'c' | 'D' => 'd' | 'E' => 'e'
  | 'F' => 'f' | 'G' => 'g' | 'H' => 'h' | 'I' => 'i' | 'J' => 'j'
  | 'K' => 'k' | 'L' => 'l' | 'M' => 'm' | 'N' => 'n' | 'O' => 'o'
  | 'P' => 'p' | 'Q' => 'q' | 'R' => 'r' | 'S' => 's' | 'T' => 't'
  | 'U' => 'u' | 'V' => 'v' | 'W' => 'w' | 'X' => 'x' | 'Y' => 'y'
  | 'Z' => 'z'
  | c => c

/-- Python `s.lower()`. -/
def pyLower (s : String) : String := String.mk (s.data.map pyLowerChar)

/-- Python `s.count('//')`: number of non-overlapping occurrences of `//`,
scanning left to right. -/
def countDSlash : List Char → Nat
  | [] => 0
  | [_] => 0
  | c1 :: c2 :: rest =>
    if c1 = '/' ∧ c2 = '/' then countDSlash rest + 1
    else countDSlash (c2 :: rest)

/-- Python `s.split('//')`: split at non-overlapping occurrences of `//`,
scanning left to right. Always returns at least one (possibly empty) part. -/
def splitDSlash : List Char → List (List Char)
  | [] => [[]]
  | [c] => [[c]]
  | c1 :: c2 :: rest =>
    if c1 = '/' ∧ c2 = '/' then [] :: splitDSlash rest
    else
      match splitDSlash (c2 :: rest) with
      | [] => [[c1]]
      | t :: ts => (c1 :: t) :: ts

/-- Python `'/' in s`. -/
def hasSlash (l : List Char) : Bool := l.contains '/'

/-- Python `s.replace('f12a', 'f12')` (left-to-right, non-overlapping). -/
def replaceF12a : List Char → List Char
  | 'f' :: '1' :: '2' :: 'a' :: rest => 'f' :: '1' :: '2' :: replaceF12a rest
  | c :: rest => c :: replaceF12a rest
  | [] => []

/-- Python `s.replace('f12b', 'f12')` (left-to-right, non-overlapping). -/
def replaceF12b : List Char → List Char
  | 'f' :: '1' :: '2' :: 'b' :: rest => 'f' :: '1' :: '2' :: replaceF12b rest
  | c :: rest => c :: replaceF12b rest
  | [] => []

/-- Split a text into its lines at newline characters
(Python `str.splitlines()` for newline-separated text). -/
def splitNL : List Char → List (List Char)
  | [] => [[]]
  | c :: rest =>
    if c = '\n' then [] :: splitNL rest
    else
      match splitNL rest with
      | [] => [[c]]
      | t :: ts => (c :: t) :: ts

/-- A blank (field-separating) character inside a queue-status line. -/
def isWS (c : Char) : Bool := c = ' ' ∨ c = '\t'

/-- Helper for `wsFields`, carrying the (reversed) current field. -/
def wsFieldsAux (acc : List Char) : List Char → List (List Char)
  | [] => if acc.isEmpty then [] else [acc.reverse]
  | c :: rest =>
    if isWS c then
      if acc.isEmpty then wsFieldsAux [] rest
      else acc.reverse :: wsFieldsAux [] rest
    else wsFieldsAux (c :: acc) rest

/-- Python `line.split()`: the maximal whitespace-free fields of a line,
in order, with no empty fields. -/
def wsFields (l : List Char) : List (List Char) := wsFieldsAux [] l

/-! ## The job-status parser (arc.job.ssh)

The module `arc/job/ssh.py` itself is not part of the given sources; only
its unit test (`arc/job/sshTest.py`) is. The parser is therefore modelled
from the specification. -/

/-- Whether a queue-snapshot line reports on the queried job: its leading
whitespace-delimited field equals the decimal string form of the job
identifier. -/
def matchesLine (job_id : Nat) (line : List Char) : Bool :=
  (wsFields line).head? == some (toString job_id).data

/-- The fixed-column state code of a queue-snapshot line: the fifth
whitespace-delimited field (columns: job-ID, priority, name, user, state, ...). -/
def stateField (line : List Char) : List Char :=
  ((wsFields line).drop 4).headD []

/-- Modelled from the spec: `check_job_status_in_stdout` of `arc/job/ssh.py`,
which is absent from the given sources (only its unit test is present).
Per the spec, the parser scans the queue snapshot line by line; the first
line whose leading whitespace-delimited field equals the string form of the
job identifier wins; its fixed-column state code is inspected: an
error code (`e`) yields `errored`, any other in-queue code (such as `r`)
yields `running`; if no line matches, the job finished normally: `done`. -/
def check_job_status_in_stdout (job_id : Nat) (stdout : String) : String :=
  match (splitNL stdout.data).find? (matchesLine job_id) with
  | none => "done"
  | some line => if stateField line == ['e'] then "errored" else "running"

/-! ## The main orchestrator (arc/main.py)

`ARC.__init__` resolves the level-of-theory configuration and validates the
species and reaction lists; `ARC.execute` re-validates the species lists and
constructs the `Scheduler`. Exceptions (`InputError`, `ValueError`, and the
`AttributeError` Python would raise on an attribute that was never assigned)
are modelled in `Except`. `default_levels_of_theory` comes from
`arc/settings.py`, which is absent from the given sources; it is kept
abstract as a `Defaults` record parameter. -/

/-- An exception raised by the orchestrator. -/
inductive ArcError where
  | inputError (msg : String)
  | valueError (msg : String)
  | attributeError (attr : String)
deriving DecidableEq, Repr

/-- The `default_levels_of_theory` dictionary of `arc/settings.py` (the file
itself is not among the given sources; the spec only calls these the
documented defaults, so they stay abstract). -/
structure Defaults where
  conformer : String
  opt : String
  freq : String
  freq_for_composite : String
  sp : String
  scan : String
deriving DecidableEq, Repr

/-- The keyword arguments of `ARC.__init__` that drive configuration
resolution (species and reaction lists are passed separately). -/
structure ARCInput where
  level_of_theory : String
  conformer_level : String
  composite_method : String
  opt_level : String
  freq_level : String
  sp_level : String
  scan_level : String
  generate_conformers : Bool
  scan_rotors : Bool
  use_bac : Bool
  model_chemistry : String
deriving DecidableEq, Repr

/-- The resolved configuration attributes of an `ARC` object. `none` models a
Python attribute that was never assigned (reading it raises
`AttributeError`). -/
structure Config where
  conformer_level : Option String
  composite_method : Option String
  opt_level : Option String
  freq_level : Option String
  sp_level : Option String
  scan_level : Option String
  model_chemistry : String
deriving DecidableEq, Repr

/-- An object appearing in one of the species / reaction lists, identified by
its Python class (`rmgpy.species.Species`, `arc.species.ARCSpecies`,
`rmgpy.reaction.Reaction`, or anything else). -/
inductive PyObj where
  | rmgSpecies (label : String)
  | arcSpecies (label : String)
  | rmgReaction (label : String)
  | other (descr : String)
deriving DecidableEq, Repr

/-- Python `isinstance(x, Species)`. -/
def PyObj.isRmgSpecies : PyObj → Bool
  | .rmgSpecies _ => true
  | _ => false

/-- Python `isinstance(x, ARCSpecies)`. -/
def PyObj.isArcSpecies : PyObj → Bool
  | .arcSpecies _ => true
  | _ => false

/-- Python `isinstance(x, Reaction)`. -/
def PyObj.isRmgReaction : PyObj → Bool
  | .rmgReaction _ => true
  | _ => false

/-- The arguments `ARC.execute` passes to the `Scheduler` constructor
(remote work begins here). -/
structure SchedulerCall where
  species_list : List PyObj
  composite_method : String
  conformer_level : String
  opt_level : String
  freq_level : String
  sp_level : String
  scan_level : String
deriving DecidableEq, Repr

/-- The model chemistries with bond additivity corrections available in
Arkane (main.py lines 318-321 and 335-338). -/
def bacModelChemistries : List String :=
  ["cbs-qb3", "cbs-qb3-paraskevas", "ccsd(t)-f12/cc-pvdz-f12",
   "ccsd(t)-f12/cc-pvtz-f12", "ccsd(t)-f12/cc-pvqz-f12",
   "b3lyp/cbsb7", "b3lyp/6-311g(2d,d,p)", "b3lyp/6-311+g(3df,2p)",
   "b3lyp/6-31g**"]

/-- The sp levels completed to an `-f12` model chemistry
(main.py line 331). -/
def f12SpLevels : List String :=
  ["ccsd(t)-f12/cc-pvdz", "ccsd(t)-f12/cc-pvtz", "ccsd(t)-f12/cc-pvqz"]

/-- The remaining model chemistries known to Arkane, only consulted when
`use_bac` is off (main.py lines 348-360, verbatim including the one
upper-case entry). -/
def knownSpLevelsNoBac : List String :=
  ["m06-2x/cc-pvtz", "g3", "m08so/mg3s*", "klip_1", "klip_2", "klip_3",
   "klip_2_cc", "ccsd(t)-f12/cc-pvdz-f12_h-tz", "ccsd(t)-f12/cc-pvdz-f12_h-qz",
   "ccsd(t)-f12/cc-pvdz-f12", "ccsd(t)-f12/cc-pvtz-f12",
   "ccsd(t)-f12/cc-pvqz-f12", "ccsd(t)-f12/cc-pcvdz-f12",
   "ccsd(t)-f12/cc-pcvtz-f12", "ccsd(t)-f12/cc-pcvqz-f12",
   "ccsd(t)-f12/cc-pvtz-f12(-pp)", "ccsd(t)/aug-cc-pvtz(-pp)",
   "ccsd(t)-f12/aug-cc-pvdz", "ccsd(t)-f12/aug-cc-pvtz",
   "ccsd(t)-f12/aug-cc-pvqz", "b-ccsd(t)-f12/cc-pvdz-f12",
   "b-ccsd(t)-f12/cc-pvtz-f12", "b-ccsd(t)-f12/cc-pvqz-f12",
   "b-ccsd(t)-f12/cc-pcvdz-f12", "b-ccsd(t)-f12/cc-pcvtz-f12",
   "b-ccsd(t)-f12/cc-pcvqz-f12", "b-ccsd(t)-f12/aug-cc-pvdz",
   "b-ccsd(t)-f12/aug-cc-pvtz", "b-ccsd(t)-f12/aug-cc-pvqz",
   "mp2_rmp2_pvdz", "mp2_rmp2_pvtz", "mp2_rmp2_pvqz", "ccsd-f12/cc-pvdz-f12",
   "ccsd(t)-f12/cc-pvdz-f12_noscale", "g03_pbepbe_6-311++g_d_p", "fci/cc-pvdz",
   "fci/cc-pvtz", "fci/cc-pvqz", "bmk/cbsb7", "bmk/6-311g(2d,d,p)",
   "b3lyp/6-31g**", "b3lyp/6-311+g(3df,2p)", "MRCI+Davidson/aug-cc-pV(T+d)Z"]

/-- The error message of main.py lines 90-92. -/
def lotErrMsg (lot : String) : String :=
  "Level of theory seems wrong. It should either be a composite method " ++
  "(like CBS-QB3) or be of the form sp//geometry. Got: " ++ lot

/-- The error message of main.py lines 341-345. -/
def mcErrMsg : String :=
  "Could not determine appropriate model chemistry to be used in Arkane for" ++
  " thermochemical parameter calculations. Either turn off the use_bac flag" ++
  " (and BAC will not be used), or specify a correct model chemistry."

/-- `ARC.check_model_chemistry` (main.py lines 313-364): takes the current
`self.model_chemistry`, `self.sp_level` and `self.use_bac`, and returns the
new `self.model_chemistry` or raises `InputError`. -/
def check_model_chemistry (model_chemistry sp_level : String) (use_bac : Bool) :
    Except ArcError String :=
  if model_chemistry ≠ "" then
    -- lines 314-325: an explicitly supplied model chemistry is lowercased
    -- and kept; an unrecognized one only triggers a logged warning
    .ok (pyLower model_chemistry)
  else
    -- lines 326-364: infer the model chemistry from the lowercased sp level
    -- after replacing f12a and f12b with f12 (line 330)
    if String.mk (replaceF12b (replaceF12a (pyLower sp_level).data)) ∈ f12SpLevels then
      .ok (String.mk (replaceF12b (replaceF12a (pyLower sp_level).data)) ++ "-f12")
    else if String.mk (replaceF12b (replaceF12a (pyLower sp_level).data)) ∈ bacModelChemistries then
      .ok (String.mk (replaceF12b (replaceF12a (pyLower sp_level).data)))
    else if use_bac then .error (.inputError mcErrMsg)
    else if String.mk (replaceF12b (replaceF12a (pyLower sp_level).data)) ∈ knownSpLevelsNoBac then
      .ok (String.mk (replaceF12b (replaceF12a (pyLower sp_level).data)))
    else .ok ""

/-- Conformer-level resolution, main.py lines 94-103. -/
def resolveConformer (d : Defaults) (i : ARCInput) : String :=
  if i.conformer_level ≠ "" then pyLower i.conformer_level
  else if i.generate_conformers then pyLower d.conformer
  else ""

/-- Scan-level resolution, main.py lines 180-187. -/
def resolveScan (d : Defaults) (i : ARCInput) : String :=
  if i.scan_level ≠ "" then pyLower i.scan_level
  else if i.scan_rotors then pyLower d.scan
  else ""

/-- Composite-method handling in the no-`level_of_theory` branch, main.py
lines 128-138: given the lowercased composite method and the current model
chemistry, returns the updated model chemistry or raises. (The raise on
line 130 is unreachable there, since `level_of_theory` is empty in this
branch.) -/
def resolveCompositeMc (composite mc0 : String) (use_bac : Bool) :
    Except ArcError String :=
  if composite ≠ "" then
    if composite = "cbs-qb3" then .ok "cbs-qb3"
    else if use_bac then
      .error (.inputError
        ("Could not determine model chemistry to use for composite method " ++ composite))
    else .ok mc0
  else .ok mc0

/-- Opt-level resolution in the no-`level_of_theory` branch, main.py
lines 140-149. -/
def resolveOpt (d : Defaults) (i : ARCInput) (composite : String) : String :=
  if i.opt_level ≠ "" then pyLower i.opt_level
  else if composite = "" then pyLower d.opt
  else ""

/-- Freq-level resolution in the no-`level_of_theory` branch, main.py
lines 151-167: without a composite method, an unset freq level falls back to
the caller-supplied opt level if there is one, else to the default. -/
def resolveFreq (d : Defaults) (i : ARCInput) (composite : String) : String :=
  if i.freq_level ≠ "" then pyLower i.freq_level
  else if composite = "" then
    if i.opt_level ≠ "" then pyLower i.opt_level
    else pyLower d.freq
  else pyLower d.freq_for_composite

/-- Sp-level resolution in the no-`level_of_theory` branch, main.py
lines 169-178: returns the sp level together with the model chemistry
updated by `check_model_chemistry` where the code calls it. -/
def resolveSp (d : Defaults) (i : ARCInput) (composite mc1 : String) :
    Except ArcError (String × String) :=
  if i.sp_level ≠ "" then
    match check_model_chemistry mc1 (pyLower i.sp_level) i.use_bac with
    | .error e => .error e
    | .ok mc2 => .ok (pyLower i.sp_level, mc2)
  else if composite = "" then
    match check_model_chemistry mc1 (pyLower d.sp) i.use_bac with
    | .error e => .error e
    | .ok mc2 => .ok (pyLower d.sp, mc2)
  else .ok ("", mc1)

/-- The configuration-resolution part of `ARC.__init__` (main.py
lines 57-187), from the keyword arguments to the resolved attributes. -/
def arcInit (d : Defaults) (i : ARCInput) : Except ArcError Config :=
  -- lines 89-92 (line 71 stored model_chemistry as supplied, un-lowercased)
  if countDSlash i.level_of_theory.data > 1 then
    .error (.inputError (lotErrMsg i.level_of_theory))
  else if i.level_of_theory ≠ "" then
    if ¬ hasSlash i.level_of_theory.data then
      -- lines 106-108: composite method; opt/freq/sp never assigned
      .ok { conformer_level := some (resolveConformer d i),
            composite_method := some (pyLower i.level_of_theory),
            opt_level := none, freq_level := none, sp_level := none,
            scan_level := some (resolveScan d i),
            model_chemistry := i.model_chemistry }
    else if countDSlash i.level_of_theory.data > 0 then
      -- lines 109-115: sp//geometry; composite_method never assigned
      .ok { conformer_level := some (resolveConformer d i),
            composite_method := none,
            opt_level := some (String.mk
              ((splitDSlash (pyLower i.level_of_theory).data).getD 1 [])),
            freq_level := some (String.mk
              ((splitDSlash (pyLower i.level_of_theory).data).getD 1 [])),
            sp_level := some (String.mk
              ((splitDSlash (pyLower i.level_of_theory).data).headD [])),
            scan_level := some (resolveScan d i),
            model_chemistry := i.model_chemistry }
    else
      -- lines 116-125: a single level for opt, freq and sp
      .ok { conformer_level := some (resolveConformer d i),
            composite_method := none,
            opt_level := some (pyLower i.level_of_theory),
            freq_level := some (pyLower i.level_of_theory),
            sp_level := some (pyLower i.level_of_theory),
            scan_level := some (resolveScan d i),
            model_chemistry := i.model_chemistry }
  else
    -- lines 126-178
    match resolveCompositeMc (pyLower i.composite_method) i.model_chemistry i.use_bac with
    | .error e => .error e
    | .ok mc1 =>
      match resolveSp d i (pyLower i.composite_method) mc1 with
      | .error e => .error e
      | .ok (sp, mc2) =>
        .ok { conformer_level := some (resolveConformer d i),
              composite_method := some (pyLower i.composite_method),
              opt_level := some (resolveOpt d i (pyLower i.composite_method)),
              freq_level := some (resolveFreq d i (pyLower i.composite_method)),
              sp_level := some sp,
              scan_level := some (resolveScan d i), model_chemistry := mc2 }

/-- The species-list validation of `ARC.__init__` (main.py lines 189-202):
each entry of `rmg_species_list` must be an RMG `Species` with a non-empty
label, and is converted into an `ARCSpecies`. -/
def checkRmgList : List PyObj → Except ArcError (List PyObj)
  | [] => .ok []
  | .rmgSpecies label :: rest =>
    if label = "" then
      .error (.inputError "Missing label on RMG Species object")
    else
      match checkRmgList rest with
      | .error e => .error e
      | .ok conv => .ok (.arcSpecies label :: conv)
  | _ :: _ => .error (.inputError
      "All entries of rmg_species_list have to be RMG Species objects.")

/-- The species-list validation of `ARC.execute` (main.py lines 208-212). -/
def checkArcSpeciesList : List PyObj → Except ArcError Unit
  | [] => .ok ()
  | x :: rest =>
    if x.isArcSpecies then checkArcSpeciesList rest
    else .error (.valueError "All species in species_list must be ARCSpecies objects.")

/-- The reaction-list validation of `ARC.execute` (main.py lines 214-218). -/
def checkRxnList : List PyObj → Except ArcError Unit
  | [] => .ok ()
  | x :: rest =>
    if x.isRmgReaction then checkRxnList rest
    else .error (.valueError "")

/-- Reading a Python attribute that may never have been assigned. -/
def getAttr (name : String) : Option String → Except ArcError String
  | some s => .ok s
  | none => .error (.attributeError name)

/-- `ARC.execute` up to the construction of the `Scheduler` (main.py
lines 206-224): validate the aggregated species list and the reaction list,
then build the `Scheduler` arguments from the resolved attributes. -/
def execute (cfg : Config) (allSpecies rxns : List PyObj) :
    Except ArcError SchedulerCall :=
  match checkArcSpeciesList allSpecies with
  | .error e => .error e
  | .ok _ =>
    match checkRxnList rxns with
    | .error e => .error e
    | .ok _ => do
      let comp ← getAttr "composite_method" cfg.composite_method
      let conf ← getAttr "conformer_level" cfg.conformer_level
      let opt ← getAttr "opt_level" cfg.opt_level
      let freq ← getAttr "freq_level" cfg.freq_level
      let sp ← getAttr "sp_level" cfg.sp_level
      let scan ← getAttr "scan_level" cfg.scan_level
      .ok { species_list := allSpecies, composite_method := comp,
            conformer_level := conf, opt_level := opt, freq_level := freq,
            sp_level := sp, scan_level := scan }

/-- The whole of `ARC.__init__` (configuration resolution followed by
species-list validation, main.py lines 57-204): returns the resolved
configuration and the aggregated `arc_species_list`. -/
def arcInitFull (d : Defaults) (i : ARCInput) (rmg arcs : List PyObj) :
    Except ArcError (Config × List PyObj) :=
  match arcInit d i with
  | .error e => .error e
  | .ok cfg =>
    match checkRmgList rmg with
    | .error e => .error e
    | .ok conv => .ok (cfg, arcs ++ conv)

/-- Constructing an `ARC` object and calling `execute` on it: the first
remote work (the `Scheduler`) only exists in the `.ok` result. -/
def runARC (d : Defaults) (i : ARCInput) (rmg arcs rxns : List PyObj) :
    Except ArcError SchedulerCall :=
  match arcInitFull d i rmg arcs with
  | .error e => .error e
  | .ok (cfg, allSpecies) => execute cfg allSpecies rxns

/-! ## Lemmas about the string utilities -/

/-- The lower-case ASCII letters. -/
def lcLetters : List Char :=
  ['a','b','c','d','e','f','g','h','i','j','k','l','m',
   'n','o','p','q','r','s','t','u','v','w','x','y','z']

theorem pyLowerChar_cases (c : Char) :
    pyLowerChar c = c ∨ pyLowerChar c ∈ lcLetters := by
  unfold pyLowerChar
  split <;> first | (right; decide) | (left; rfl)

theorem pyLowerChar_fixed_of_mem {c : Char} (h : c ∈ lcLetters) :
    pyLowerChar c = c := by
  fin_cases h <;> rfl

theorem pyLowerChar_idem (c : Char) :
    pyLowerChar (pyLowerChar c) = pyLowerChar c := by
  rcases pyLowerChar_cases c with h | h
  · rw [h, h]
  · exact pyLowerChar_fixed_of_mem h

theorem pyLowerChar_eq_slash {c : Char} (h : pyLowerChar c = '/') : c = '/' := by
  rcases pyLowerChar_cases c with h' | h'
  · rw [h'] at h; exact h
  · rw [h] at h'; exact absurd h' (by decide)

theorem pyLowerChar_slash : pyLowerChar '/' = '/' := rfl

/-- All characters of the list are fixed by lowercasing. -/
def lcList (l : List Char) : Prop := ∀ c ∈ l, pyLowerChar c = c

theorem lcList_map (l : List Char) : lcList (l.map pyLowerChar) := by
  intro c hc
  rcases List.mem_map.mp hc with ⟨a, _, rfl⟩
  exact pyLowerChar_idem a

theorem map_eq_self_of_lcList {l : List Char} (h : lcList l) :
    l.map pyLowerChar = l :=
  (List.map_congr_left h).trans (List.map_id l)

/-- The string is fixed by Python lowercasing (true in particular of `""`). -/
def isLowered (s : String) : Prop := pyLower s = s

theorem isLowered_mk_of_lcList {l : List Char} (h : lcList l) :
    isLowered (String.mk l) := by
  show String.mk (l.map pyLowerChar) = String.mk l
  rw [map_eq_self_of_lcList h]

theorem isLowered_pyLower (s : String) : isLowered (pyLower s) :=
  isLowered_mk_of_lcList (lcList_map _)

theorem isLowered_empty : isLowered "" := rfl

theorem lcList_of_map_eq {l : List Char} (h : l.map pyLowerChar = l) :
    lcList l := by
  induction l with
  | nil => intro c hc; cases hc
  | cons a l ih =>
    rw [List.map_cons, List.cons.injEq] at h
    intro c hc
    rcases List.mem_cons.mp hc with rfl | hc'
    · exact h.1
    · exact ih h.2 c hc'

theorem lcList_of_isLowered {s : String} (h : isLowered s) : lcList s.data :=
  lcList_of_map_eq (congrArg String.data h)

theorem isLowered_append {s t : String} (hs : isLowered s) (ht : isLowered t) :
    isLowered (s ++ t) := by
  have h1 : lcList (s.data ++ t.data) := by
    intro c hc
    rcases List.mem_append.mp hc with h | h
    · exact lcList_of_isLowered hs c h
    · exact lcList_of_isLowered ht c h
  cases s with
  | mk l =>
    cases t with
    | mk m => exact isLowered_mk_of_lcList h1

theorem splitDSlash_dslash (rest : List Char) :
    splitDSlash ('/' :: '/' :: rest) = [] :: splitDSlash rest := by
  rw [splitDSlash.eq_3]; simp

theorem splitDSlash_cons {c1 c2 : Char} {rest t : List Char}
    {ts : List (List Char)} (h : ¬(c1 = '/' ∧ c2 = '/'))
    (hts : splitDSlash (c2 :: rest) = t :: ts) :
    splitDSlash (c1 :: c2 :: rest) = (c1 :: t) :: ts := by
  rw [splitDSlash.eq_3, if_neg h, hts]

theorem countDSlash_dslash (rest : List Char) :
    countDSlash ('/' :: '/' :: rest) = countDSlash rest + 1 := by
  rw [countDSlash.eq_3]; simp

theorem countDSlash_cons {c1 c2 : Char} (rest : List Char)
    (h : ¬(c1 = '/' ∧ c2 = '/')) :
    countDSlash (c1 :: c2 :: rest) = countDSlash (c2 :: rest) := by
  rw [countDSlash.eq_3, if_neg h]

theorem splitDSlash_ne_nil (l : List Char) : splitDSlash l ≠ [] := by
  unfold splitDSlash
  split
  · simp
  · simp
  · split
    · simp
    · split <;> simp

/-- `split('//')` returns one part more than `count('//')` occurrences. -/
theorem length_splitDSlash (l : List Char) :
    (splitDSlash l).length = countDSlash l + 1 := by
  induction l using splitDSlash.induct with
  | case1 => rfl
  | case2 c => rfl
  | case3 c1 c2 rest h ih =>
    obtain ⟨rfl, rfl⟩ := h
    rw [splitDSlash_dslash, countDSlash_dslash]
    simp [ih]
  | case4 c1 c2 rest h hnil ih =>
    exact absurd hnil (splitDSlash_ne_nil _)
  | case5 c1 c2 rest h t ts hts ih =>
    rw [splitDSlash_cons h hts, countDSlash_cons rest h]
    rw [hts] at ih
    simpa using ih

/-- Lowercasing commutes with splitting at `//`. -/
theorem splitDSlash_map_lower (l : List Char) :
    splitDSlash (l.map pyLowerChar) = (splitDSlash l).map (List.map pyLowerChar) := by
  induction l using splitDSlash.induct with
  | case1 => rfl
  | case2 c => rfl
  | case3 c1 c2 rest h ih =>
    obtain ⟨rfl, rfl⟩ := h
    simp only [List.map_cons, pyLowerChar_slash]
    rw [splitDSlash_dslash, splitDSlash_dslash, List.map_cons, ih]
    rfl
  | case4 c1 c2 rest h hnil ih =>
    exact absurd hnil (splitDSlash_ne_nil _)
  | case5 c1 c2 rest h t ts hts ih =>
    have h' : ¬(pyLowerChar c1 = '/' ∧ pyLowerChar c2 = '/') := by
      rintro ⟨h1, h2⟩
      exact h ⟨pyLowerChar_eq_slash h1, pyLowerChar_eq_slash h2⟩
    rw [hts] at ih
    simp only [List.map_cons] at ih ⊢
    rw [splitDSlash_cons h' ih, splitDSlash_cons h hts]
    rfl

/-- Every character of a `split('//')` part occurs in the original string. -/
theorem mem_of_mem_splitDSlash {l t : List Char} (ht : t ∈ splitDSlash l)
    {c : Char} (hc : c ∈ t) : c ∈ l := by
  induction l using splitDSlash.induct generalizing t with
  | case1 =>
    simp only [splitDSlash, List.mem_singleton] at ht
    subst ht; cases hc
  | case2 a =>
    simp only [splitDSlash, List.mem_singleton] at ht
    subst ht; exact hc
  | case3 c1 c2 rest h ih =>
    obtain ⟨rfl, rfl⟩ := h
    rw [splitDSlash_dslash] at ht
    rcases List.mem_cons.mp ht with rfl | ht'
    · cases hc
    · exact List.mem_cons_of_mem _ (List.mem_cons_of_mem _ (ih ht' hc))
  | case4 c1 c2 rest h hnil ih =>
    exact absurd hnil (splitDSlash_ne_nil _)
  | case5 c1 c2 rest h t' ts hts ih =>
    rw [splitDSlash_cons h hts] at ht
    rcases List.mem_cons.mp ht with rfl | ht'
    · rcases List.mem_cons.mp hc with rfl | hc'
      · exact List.mem_cons_self _ _
      · exact List.mem_cons_of_mem _ (ih (hts ▸ List.mem_cons_self _ _) hc')
    · exact List.mem_cons_of_mem _ (ih (hts ▸ List.mem_cons_of_mem _ ht') hc)

/-- A positive `count('//')` means the string contains a slash. -/
theorem slash_mem_of_countDSlash_pos {l : List Char} (h : 0 < countDSlash l) :
    '/' ∈ l := by
  induction l using countDSlash.induct with
  | case1 => simp [countDSlash] at h
  | case2 c => simp [countDSlash] at h
  | case3 c1 c2 rest hc ih =>
    obtain ⟨rfl, rfl⟩ := hc
    exact List.mem_cons_self _ _
  | case4 c1 c2 rest hc ih =>
    rw [countDSlash_cons rest hc] at h
    exact List.mem_cons_of_mem _ (ih h)

/-- Characters produced by `replace('f12a', 'f12')` come from the input or
from the replacement text. -/
theorem mem_replaceF12a {l : List Char} {c : Char} (h : c ∈ replaceF12a l) :
    c ∈ l ∨ c ∈ (['f', '1', '2'] : List Char) := by
  induction l using replaceF12a.induct with
  | case1 rest ih =>
    rw [replaceF12a.eq_1] at h
    rcases List.mem_cons.mp h with rfl | h
    · right; simp
    · rcases List.mem_cons.mp h with rfl | h
      · right; simp
      · rcases List.mem_cons.mp h with rfl | h
        · right; simp
        · rcases ih h with h' | h'
          · left
            exact List.mem_cons_of_mem _ (List.mem_cons_of_mem _
              (List.mem_cons_of_mem _ (List.mem_cons_of_mem _ h')))
          · right; exact h'
  | case2 a rest hne ih =>
    rw [replaceF12a.eq_2 a rest hne] at h
    rcases List.mem_cons.mp h with rfl | h
    · left; exact List.mem_cons_self _ _
    · rcases ih h with h' | h'
      · left; exact List.mem_cons_of_mem _ h'
      · right; exact h'
  | case3 => simp [replaceF12a] at h

/-- Characters produced by `replace('f12b', 'f12')` come from the input or
from the replacement text. -/
theorem mem_replaceF12b {l : List Char} {c : Char} (h : c ∈ replaceF12b l) :
    c ∈ l ∨ c ∈ (['f', '1', '2'] : List Char) := by
  induction l using replaceF12b.induct with
  | case1 rest ih =>
    rw [replaceF12b.eq_1] at h
    rcases List.mem_cons.mp h with rfl | h
    · right; simp
    · rcases List.mem_cons.mp h with rfl | h
      · right; simp
      · rcases List.mem_cons.mp h with rfl | h
        · right; simp
        · rcases ih h with h' | h'
          · left
            exact List.mem_cons_of_mem _ (List.mem_cons_of_mem _
              (List.mem_cons_of_mem _ (List.mem_cons_of_mem _ h')))
          · right; exact h'
  | case2 a rest hne ih =>
    rw [replaceF12b.eq_2 a rest hne] at h
    rcases List.mem_cons.mp h with rfl | h
    · left; exact List.mem_cons_self _ _
    · rcases ih h with h' | h'
      · left; exact List.mem_cons_of_mem _ h'
      · right; exact h'
  | case3 => simp [replaceF12b] at h

theorem lcList_replaceF12a {l : List Char} (h : lcList l) :
    lcList (replaceF12a l) := by
  intro c hc
  rcases mem_replaceF12a hc with h' | h'
  · exact h c h'
  · fin_cases h' <;> rfl

theorem lcList_replaceF12b {l : List Char} (h : lcList l) :
    lcList (replaceF12b l) := by
  intro c hc
  rcases mem_replaceF12b hc with h' | h'
  · exact h c h'
  · fin_cases h' <;> rfl

/-- Whatever `check_model_chemistry` returns without raising is the empty
string or fully lowercased. -/
theorem check_model_chemistry_ok_lowered {mc sp : String} {ub : Bool}
    {r : String} (h : check_model_chemistry mc sp ub = .ok r) : isLowered r := by
  have hsp : isLowered (String.mk (replaceF12b (replaceF12a (pyLower sp).data))) :=
    isLowered_mk_of_lcList (lcList_replaceF12b (lcList_replaceF12a (lcList_map _)))
  unfold check_model_chemistry at h
  split at h
  · cases h
    exact isLowered_pyLower mc
  · split at h
    · cases h
      exact isLowered_append hsp (by rfl)
    · split at h
      · cases h
        exact hsp
      · split at h
        · cases h
        · split at h
          · cases h
            exact hsp
          · cases h
            exact isLowered_empty

/-! ## Concrete queue snapshots -/

/-- The queue snapshot of the unit test
`TestSSH.test_check_job_status_in_stdout` (sshTest.py lines 23-27). -/
def stdoutTest : String :=
  "job-ID  prior   name       user         state submit/start at     queue                          slots ja-task-ID \n-----------------------------------------------------------------------------------------------------------------\n 582682 0.45451 a9654      alongd       e     04/17/2019 16:22:14 long5@node93.cluster              48\n 588334 0.45451 pf1005a    alongd       r     05/07/2019 16:24:31 long3@node67.cluster              48\n 588345 0.45451 a14121     alongd       r     05/08/2019 02:11:42 long3@node69.cluster              48    "

/-- The line of `stdoutTest` reporting job 588345 (state code `r`). -/
def lineR588345 : List Char :=
  " 588345 0.45451 a14121     alongd       r     05/08/2019 02:11:42 long3@node69.cluster              48    ".data

/-- A queue snapshot in which two lines carry the same job identifier, the
first with state code `e`, the second with state code `r`. -/
def dupSnapshot : String :=
  "111 0.1 job1 user e 04/17 long1 48\n111 0.1 job2 user r 04/17 long1 48"

/-- The second line of `dupSnapshot` (job-ID field `111`, state code `r`). -/
def lineRdup : List Char := "111 0.1 job2 user r 04/17 long1 48".data

/-- A queue snapshot containing only job 582682, with state code `e`. -/
def snapshot582682 : String :=
  " 582682 0.45451 a9654      alongd       e     04/17/2019 16:22:14 long5@node93.cluster              48"

/-- The single line of `snapshot582682`. -/
def lineE582682 : List Char := snapshot582682.data

/-! ## Claims about the job-status parser -/

/-- Claim C1, counterexample: in a snapshot where two lines carry job-ID
field 111, the first with state code e and the second with state code r,
some line's job-ID field equals the identifier and has state code r, yet
the parser returns errored (the first matching line wins), not running. -/
theorem claim_C1_counterexample :
    lineRdup ∈ splitNL dupSnapshot.data ∧
    matchesLine 111 lineRdup = true ∧
    stateField lineRdup = ['r'] ∧
    check_job_status_in_stdout 111 dupSnapshot = "errored" :=
  ⟨by decide, by decide, by decide, by decide⟩

/-- Claim C1 (amended): for every job identifier and queue-snapshot text,
if the FIRST line whose job-ID field equals the string form of the
identifier has state code r, then check_job_status_in_stdout returns
running; if that first matching line has state code e, it returns
errored. -/
theorem claim_C1_amended (jid : Nat) (stdout : String) (line : List Char)
    (h : (splitNL stdout.data).find? (matchesLine jid) = some line) :
    (stateField line = ['r'] → check_job_status_in_stdout jid stdout = "running") ∧
    (stateField line = ['e'] → check_job_status_in_stdout jid stdout = "errored") := by
  have key : check_job_status_in_stdout jid stdout
      = if stateField line == ['e'] then "errored" else "running" := by
    unfold check_job_status_in_stdout
    rw [h]
  constructor
  · intro hr; rw [key, hr]; rfl
  · intro he; rw [key, he]; rfl

/-- Witness for C1 (amended), at the unit-test snapshot: job 588345 is
reported on the fifth line with state code r, and the parser returns
running. -/
theorem claim_C1_amended_witness :
    check_job_status_in_stdout 588345 stdoutTest = "running" :=
  (claim_C1_amended 588345 stdoutTest lineR588345 (by decide)).1 (by decide)

/-- Claim C2: for every job identifier that matches no line of the
queue-snapshot text, check_job_status_in_stdout returns done (absence from
the queue is treated as normal completion, never as an error). -/
theorem claim_C2 (jid : Nat) (stdout : String)
    (h : ∀ line ∈ splitNL stdout.data, matchesLine jid line = false) :
    check_job_status_in_stdout jid stdout = "done" := by
  unfold check_job_status_in_stdout
  have hn : (splitNL stdout.data).find? (matchesLine jid) = none :=
    List.find?_eq_none.mpr (fun x hx => by simp [h x hx])
  rw [hn]

/-- Witness for C2, at the unit-test snapshot: job 582600 appears on no
line, and the parser returns done. -/
theorem claim_C2_witness :
    check_job_status_in_stdout 582600 stdoutTest = "done" :=
  claim_C2 582600 stdoutTest (by decide)

/-- Claim C3: job-identifier matching is exact on the line's leading
whitespace-delimited field (a line matches only when the field equals the
string form of the integer identifier, so proper substrings and proper
superstrings of the field never match); in particular a snapshot containing
only job 582682 yields done for the queries 82682 and 5826820 while the
exact query 582682 does match (state code e, hence errored). -/
theorem claim_C3 :
    (∀ (jid : Nat) (line : List Char), matchesLine jid line = true →
        (wsFields line).head? = some (toString jid).data) ∧
    check_job_status_in_stdout 82682 snapshot582682 = "done" ∧
    check_job_status_in_stdout 5826820 snapshot582682 = "done" ∧
    check_job_status_in_stdout 582682 snapshot582682 = "errored" := by
  refine ⟨?_, by decide, by decide, by decide⟩
  intro jid line h
  exact beq_iff_eq.mp h

/-- Witness for C3: the single line of the one-job snapshot matches the
exact query 582682, so its leading field is the string 582682. -/
theorem claim_C3_witness :
    (wsFields lineE582682).head? = some (toString 582682).data :=
  claim_C3.1 582682 lineE582682 (by decide)

/-! ## Concrete configurations for witnesses and counterexamples -/

/-- A concrete stand-in for the `default_levels_of_theory` of
`arc/settings.py` (absent from the given sources): six distinct,
already-lowercase level strings. -/
def D0 : Defaults :=
  { conformer := "def-conformer", opt := "def-opt", freq := "def-freq",
    freq_for_composite := "def-freq-comp", sp := "def-sp", scan := "def-scan" }

/-- A level-of-theory string with two `//` separators. -/
def I4 : ARCInput :=
  { level_of_theory := "ccsd(t)-f12/avtz//b3lyp/sto-3g//hf/sto-3g",
    conformer_level := "", composite_method := "", opt_level := "",
    freq_level := "", sp_level := "", scan_level := "",
    generate_conformers := true, scan_rotors := true, use_bac := true,
    model_chemistry := "" }

/-- A level-of-theory string of the sp//geometry form. -/
def I5 : ARCInput :=
  { level_of_theory := "CCSD(T)-F12/avtz//wB97x-D3/6-311++g**",
    conformer_level := "", composite_method := "", opt_level := "",
    freq_level := "", sp_level := "", scan_level := "",
    generate_conformers := true, scan_rotors := true, use_bac := true,
    model_chemistry := "" }

/-! ## Claims about the main orchestrator -/

/-- Claim C4: for every level_of_theory string in which the separator token
// occurs more than once, construction of the ARC object raises InputError
before any level is resolved and before any job is scheduled (the run
never reaches the Scheduler). -/
theorem claim_C4 (d : Defaults) (i : ARCInput) (rmg arcs rxns : List PyObj)
    (h : countDSlash i.level_of_theory.data > 1) :
    runARC d i rmg arcs rxns = .error (.inputError (lotErrMsg i.level_of_theory)) := by
  have h1 : arcInit d i = .error (.inputError (lotErrMsg i.level_of_theory)) := by
    unfold arcInit
    rw [if_pos h]
  unfold runARC arcInitFull
  rw [h1]

/-- Witness for C4: a string with two // separators makes the whole run
fail with the InputError of main.py lines 90-92. -/
theorem claim_C4_witness :
    runARC D0 I4 [] [] [] = .error (.inputError (lotErrMsg I4.level_of_theory)) :=
  claim_C4 D0 I4 [] [] [] (by decide)

/-- Claim C5: for every level_of_theory string containing exactly one //,
resolution succeeds and sets sp_level to the lowercased part left of //
and both opt_level and freq_level to the lowercased part right of //. -/
theorem claim_C5 (d : Defaults) (i : ARCInput)
    (hc : countDSlash i.level_of_theory.data = 1) :
    (arcInit d i).map Config.sp_level =
      .ok (some (pyLower (String.mk ((splitDSlash i.level_of_theory.data).headD [])))) ∧
    (arcInit d i).map Config.opt_level =
      .ok (some (pyLower (String.mk ((splitDSlash i.level_of_theory.data).getD 1 [])))) ∧
    (arcInit d i).map Config.freq_level = (arcInit d i).map Config.opt_level := by
  have hne : i.level_of_theory ≠ "" := by
    intro he
    rw [he] at hc
    exact absurd hc (by decide)
  have hslash : hasSlash i.level_of_theory.data = true := by
    unfold hasSlash
    simp [slash_mem_of_countDSlash_pos
      (show 0 < countDSlash i.level_of_theory.data by omega)]
  obtain ⟨a, b, hab⟩ : ∃ a b, splitDSlash i.level_of_theory.data = [a, b] :=
    List.length_eq_two.mp (by rw [length_splitDSlash, hc])
  have hmap : splitDSlash (pyLower i.level_of_theory).data
      = [a.map pyLowerChar, b.map pyLowerChar] := by
    show splitDSlash (i.level_of_theory.data.map pyLowerChar) = _
    rw [splitDSlash_map_lower, hab]
    rfl
  have harc : arcInit d i = .ok
      { conformer_level := some (resolveConformer d i),
        composite_method := none,
        opt_level := some (String.mk (b.map pyLowerChar)),
        freq_level := some (String.mk (b.map pyLowerChar)),
        sp_level := some (String.mk (a.map pyLowerChar)),
        scan_level := some (resolveScan d i),
        model_chemistry := i.model_chemistry } := by
    unfold arcInit
    rw [if_neg (by omega), if_pos hne, if_neg (by simp [hslash]),
      if_pos (by omega), hmap]
    rfl
  refine ⟨?_, ?_, ?_⟩
  · rw [harc, hab]
    rfl
  · rw [harc, hab]
    rfl
  · rw [harc]
    rfl

/-- Witness for C5: a mixed-case sp//geometry string resolves to the
lowercased left part as sp level and the lowercased right part as both
opt and freq levels. -/
theorem claim_C5_witness :
    (arcInit D0 I5).map Config.sp_level =
      .ok (some (pyLower (String.mk ((splitDSlash I5.level_of_theory.data).headD [])))) ∧
    (arcInit D0 I5).map Config.opt_level =
      .ok (some (pyLower (String.mk ((splitDSlash I5.level_of_theory.data).getD 1 [])))) ∧
    (arcInit D0 I5).map Config.freq_level = (arcInit D0 I5).map Config.opt_level :=
  claim_C5 D0 I5 (by decide)

/-- Claim C6: when model_chemistry is not explicitly given, it is inferred
from the sp level (lowercased, f12a/f12b normalized to f12) via the fixed
lookup tables: an sp level in the f12 table yields the sp level with -f12
appended, one in the BAC table is taken as is, and if the inference finds
no known method while use_bac is requested, InputError is raised. -/
theorem claim_C6 (sp_level : String) :
    (String.mk (replaceF12b (replaceF12a (pyLower sp_level).data)) ∈ f12SpLevels →
      check_model_chemistry "" sp_level true
        = .ok (String.mk (replaceF12b (replaceF12a (pyLower sp_level).data)) ++ "-f12")) ∧
    (String.mk (replaceF12b (replaceF12a (pyLower sp_level).data)) ∉ f12SpLevels →
      String.mk (replaceF12b (replaceF12a (pyLower sp_level).data)) ∈ bacModelChemistries →
      check_model_chemistry "" sp_level true
        = .ok (String.mk (replaceF12b (replaceF12a (pyLower sp_level).data)))) ∧
    (String.mk (replaceF12b (replaceF12a (pyLower sp_level).data)) ∉ f12SpLevels →
      String.mk (replaceF12b (replaceF12a (pyLower sp_level).data)) ∉ bacModelChemistries →
      check_model_chemistry "" sp_level true = .error (.inputError mcErrMsg)) := by
  unfold check_model_chemistry
  rw [if_neg (by simp)]
  refine ⟨fun h1 => ?_, fun h1 h2 => ?_, fun h1 h2 => ?_⟩
  · rw [if_pos h1]
  · rw [if_neg h1, if_pos h2]
  · rw [if_neg h1, if_neg h2, if_pos rfl]

/-- Witness for C6: the sp level CCSD(T)-F12a/cc-pVTZ normalizes to
ccsd(t)-f12/cc-pvtz, which is in the f12 table, so the inferred model
chemistry is ccsd(t)-f12/cc-pvtz-f12. -/
theorem claim_C6_witness :
    check_model_chemistry "" "CCSD(T)-F12a/cc-pVTZ" true
      = .ok (String.mk (replaceF12b (replaceF12a
          (pyLower "CCSD(T)-F12a/cc-pVTZ").data)) ++ "-f12") :=
  (claim_C6 "CCSD(T)-F12a/cc-pVTZ").1 (by decide)

/-- Claim C10: if model_chemistry is explicitly supplied (non-empty),
check_model_chemistry never raises: the supplied value is kept (lowercased)
regardless of use_bac and of whether it is recognized, and the
sp_level-based inference is not consulted. -/
theorem claim_C10 (mc sp_level : String) (ub : Bool) (h : mc ≠ "") :
    check_model_chemistry mc sp_level ub = .ok (pyLower mc) := by
  unfold check_model_chemistry
  rw [if_pos h]

/-- Witness for C10: an unrecognized, mixed-case model chemistry is kept
(lowercased) even with use_bac on. -/
theorem claim_C10_witness :
    check_model_chemistry "Wild-Guess/Basis" "whatever" true
      = .ok (pyLower "Wild-Guess/Basis") :=
  claim_C10 "Wild-Guess/Basis" "whatever" true (by decide)

/-- No combined level of theory, no composite method, but a caller-supplied
opt level; freq, sp, scan, conformer levels left unset; use_bac off. -/
def I7 : ARCInput :=
  { level_of_theory := "", conformer_level := "", composite_method := "",
    opt_level := "B3LYP/6-31G*", freq_level := "", sp_level := "",
    scan_level := "", generate_conformers := true, scan_rotors := true,
    use_bac := false, model_chemistry := "" }

/-- The configuration `arcInit` resolves for `D0` and `I7`. -/
def cfg7 : Config :=
  { conformer_level := some "def-conformer", composite_method := some "",
    opt_level := some "b3lyp/6-31g*", freq_level := some "b3lyp/6-31g*",
    sp_level := some "def-sp", scan_level := some "def-scan",
    model_chemistry := "" }

/-- Claim C7, counterexample: with no combined level_of_theory, freq_level
left unset by the caller does NOT fall back to the documented freq default;
it falls back to the caller-supplied opt level (lowercased) instead
(main.py lines 154-158). -/
theorem claim_C7_counterexample :
    I7.level_of_theory = "" ∧ I7.freq_level = "" ∧
    (arcInit D0 I7).map Config.freq_level = .ok (some "b3lyp/6-31g*") ∧
    pyLower D0.freq ≠ "b3lyp/6-31g*" :=
  ⟨rfl, rfl, rfl, by decide⟩

/-- Claim C7 (amended): if no combined level_of_theory and no composite
method are given and resolution succeeds, then: an unset conformer level
falls back to its default when generate_conformers is on (else empty); an
unset opt level falls back to its default; an unset freq level falls back
to the caller-supplied opt level (lowercased) if one was given, else to its
default; an unset sp level falls back to its default; an unset scan level
falls back to its default when scan_rotors is on (else empty). -/
theorem claim_C7_amended (d : Defaults) (i : ARCInput) (cfg : Config)
    (hlot : i.level_of_theory = "") (hcomp : i.composite_method = "")
    (hok : arcInit d i = .ok cfg) :
    (i.conformer_level = "" →
      cfg.conformer_level
        = some (if i.generate_conformers then pyLower d.conformer else "")) ∧
    (i.opt_level = "" → cfg.opt_level = some (pyLower d.opt)) ∧
    (i.freq_level = "" →
      cfg.freq_level
        = some (if i.opt_level ≠ "" then pyLower i.opt_level else pyLower d.freq)) ∧
    (i.sp_level = "" → cfg.sp_level = some (pyLower d.sp)) ∧
    (i.scan_level = "" →
      cfg.scan_level = some (if i.scan_rotors then pyLower d.scan else "")) := by
  have hcomp' : pyLower i.composite_method = "" := by rw [hcomp]; rfl
  unfold arcInit at hok
  rw [if_neg (by rw [hlot]; decide), if_neg (by simp [hlot])] at hok
  split at hok
  · rename_i e heq
    rw [hcomp'] at heq
    unfold resolveCompositeMc at heq
    rw [if_neg (by simp)] at heq
    exact absurd heq (by simp)
  · rename_i mc1 heq1
    split at hok
    · exact absurd hok (by simp)
    · rename_i sp mc2 heq2
      have hcfg : cfg =
          { conformer_level := some (resolveConformer d i),
            composite_method := some (pyLower i.composite_method),
            opt_level := some (resolveOpt d i (pyLower i.composite_method)),
            freq_level := some (resolveFreq d i (pyLower i.composite_method)),
            sp_level := some sp,
            scan_level := some (resolveScan d i), model_chemistry := mc2 } := by
        cases hok; rfl
      subst hcfg
      refine ⟨fun hconf => ?_, fun hopt => ?_, fun hfreq => ?_,
        fun hspl => ?_, fun hscan => ?_⟩
      · show some (resolveConformer d i) = _
        unfold resolveConformer
        rw [if_neg (by simp [hconf])]
      · show some (resolveOpt d i (pyLower i.composite_method)) = _
        unfold resolveOpt
        rw [if_neg (by simp [hopt]), if_pos hcomp']
      · show some (resolveFreq d i (pyLower i.composite_method)) = _
        unfold resolveFreq
        rw [if_neg (by simp [hfreq]), if_pos hcomp']
      · unfold resolveSp at heq2
        rw [if_neg (by simp [hspl]), if_pos hcomp'] at heq2
        split at heq2
        · exact absurd heq2 (by simp)
        · rename_i m heqc
          injection heq2 with hpair
          injection hpair with hs hm
          show some sp = some (pyLower d.sp)
          rw [← hs]
      · show some (resolveScan d i) = _
        unfold resolveScan
        rw [if_neg (by simp [hscan])]

/-- Witness for C7 (amended), at `D0` and `I7`: freq was unset and opt was
given, so the resolved freq level is the lowercased caller opt level. -/
theorem claim_C7_amended_witness :
    cfg7.freq_level
      = some (if I7.opt_level ≠ "" then pyLower I7.opt_level else pyLower D0.freq) :=
  (claim_C7_amended D0 I7 cfg7 rfl rfl rfl).2.2.1 rfl

theorem isLowered_resolveConformer (d : Defaults) (i : ARCInput) :
    isLowered (resolveConformer d i) := by
  unfold resolveConformer
  split
  · exact isLowered_pyLower _
  · split
    · exact isLowered_pyLower _
    · exact isLowered_empty

theorem isLowered_resolveScan (d : Defaults) (i : ARCInput) :
    isLowered (resolveScan d i) := by
  unfold resolveScan
  split
  · exact isLowered_pyLower _
  · split
    · exact isLowered_pyLower _
    · exact isLowered_empty

theorem isLowered_resolveOpt (d : Defaults) (i : ARCInput) (composite : String) :
    isLowered (resolveOpt d i composite) := by
  unfold resolveOpt
  split
  · exact isLowered_pyLower _
  · split
    · exact isLowered_pyLower _
    · exact isLowered_empty

theorem isLowered_resolveFreq (d : Defaults) (i : ARCInput) (composite : String) :
    isLowered (resolveFreq d i composite) := by
  unfold resolveFreq
  split
  · exact isLowered_pyLower _
  · split
    · split
      · exact isLowered_pyLower _
      · exact isLowered_pyLower _
    · exact isLowered_pyLower _

/-- Every `split('//')` part of a lowercased string is itself lowercased. -/
theorem isLowered_of_mem_splitDSlash_pyLower {s : String} {t : List Char}
    (ht : t ∈ splitDSlash (pyLower s).data) : isLowered (String.mk t) := by
  refine isLowered_mk_of_lcList (fun c hc => ?_)
  exact lcList_map s.data c (mem_of_mem_splitDSlash ht hc)

theorem isLowered_splitDSlash_headD (s : String) :
    isLowered (String.mk ((splitDSlash (pyLower s).data).headD [])) := by
  cases h : splitDSlash (pyLower s).data with
  | nil => exact isLowered_empty
  | cons t ts =>
    exact isLowered_of_mem_splitDSlash_pyLower (h ▸ List.mem_cons_self t ts)

theorem isLowered_splitDSlash_getD (s : String) (n : Nat) :
    isLowered (String.mk ((splitDSlash (pyLower s).data).getD n [])) := by
  rw [List.getD_eq_getElem?_getD]
  cases h : (splitDSlash (pyLower s).data)[n]? with
  | none => exact isLowered_empty
  | some t =>
    have ht : t ∈ splitDSlash (pyLower s).data := by
      have := List.get?_eq_getElem? (splitDSlash (pyLower s).data) n
      exact List.get?_mem (this.trans h)
    exact isLowered_of_mem_splitDSlash_pyLower ht

/-- The sp level produced by `resolveSp` is lowered, and the model chemistry
it produces is lowered whenever an sp level was supplied or no composite
method was in force (the cases in which `check_model_chemistry` runs). -/
theorem resolveSp_ok_lowered {d : Defaults} {i : ARCInput}
    {composite mc1 sp mc2 : String}
    (h : resolveSp d i composite mc1 = .ok (sp, mc2)) :
    isLowered sp ∧ ((i.sp_level ≠ "" ∨ composite = "") → isLowered mc2) := by
  unfold resolveSp at h
  split at h
  · split at h
    · exact absurd h (by simp)
    · rename_i m heqc
      injection h with hpair
      injection hpair with hs hm
      subst hs hm
      exact ⟨isLowered_pyLower _, fun _ => check_model_chemistry_ok_lowered heqc⟩
  · rename_i hsp
    split at h
    · rename_i hcz
      split at h
      · exact absurd h (by simp)
      · rename_i m heqc
        injection h with hpair
        injection hpair with hs hm
        subst hs hm
        exact ⟨isLowered_pyLower _, fun _ => check_model_chemistry_ok_lowered heqc⟩
    · rename_i hcz
      injection h with hpair
      injection hpair with hs hm
      subst hs hm
      refine ⟨isLowered_empty, fun hor => ?_⟩
      rcases hor with hc | hc
      · exact absurd hc hsp
      · exact absurd hc hcz

/-- Non-lowercased model chemistry kept verbatim: an sp//geometry level of
theory together with an explicitly supplied mixed-case model chemistry. -/
def I9 : ARCInput :=
  { level_of_theory := "CCSD(T)/avtz//B3LYP/6-31g", conformer_level := "",
    composite_method := "", opt_level := "", freq_level := "", sp_level := "",
    scan_level := "", generate_conformers := true, scan_rotors := true,
    use_bac := true, model_chemistry := "CBS-QB3" }

/-- Claim C9, counterexample: with a combined sp//geometry level_of_theory,
an explicitly supplied model chemistry is stored verbatim (main.py line 71)
and `check_model_chemistry` is never called, so construction succeeds with
the non-empty, non-lowercased model_chemistry CBS-QB3. -/
theorem claim_C9_counterexample :
    (arcInit D0 I9).map Config.model_chemistry = .ok "CBS-QB3" ∧
    pyLower "CBS-QB3" ≠ "CBS-QB3" ∧ ("CBS-QB3" : String) ≠ "" :=
  ⟨rfl, by decide, by decide⟩

/-- Claim C9 (amended): whenever ARC construction succeeds, each of the
resolved conformer_level, composite_method, opt_level, freq_level, sp_level
and scan_level that was assigned is the empty string or fully lowercased;
model_chemistry is so whenever no combined level_of_theory was given and
either an individual sp_level was given or no composite_method was given
(the cases in which check_model_chemistry runs); otherwise it may keep the
caller-supplied string verbatim. -/
theorem claim_C9_amended (d : Defaults) (i : ARCInput) (cfg : Config)
    (hok : arcInit d i = .ok cfg) :
    (∀ s, cfg.conformer_level = some s → isLowered s) ∧
    (∀ s, cfg.composite_method = some s → isLowered s) ∧
    (∀ s, cfg.opt_level = some s → isLowered s) ∧
    (∀ s, cfg.freq_level = some s → isLowered s) ∧
    (∀ s, cfg.sp_level = some s → isLowered s) ∧
    (∀ s, cfg.scan_level = some s → isLowered s) ∧
    (i.level_of_theory = "" → (i.sp_level ≠ "" ∨ i.composite_method = "") →
      isLowered cfg.model_chemistry) := by
  unfold arcInit at hok
  split at hok
  · exact absurd hok (by simp)
  · split at hok
    · rename_i hlot
      split at hok
      · have hcfg : cfg =
            { conformer_level := some (resolveConformer d i),
              composite_method := some (pyLower i.level_of_theory),
              opt_level := none, freq_level := none, sp_level := none,
              scan_level := some (resolveScan d i),
              model_chemistry := i.model_chemistry } := by
          cases hok; rfl
        subst hcfg
        refine ⟨?_, ?_, ?_, ?_, ?_, ?_, ?_⟩
        · intro s hs
          cases hs
          exact isLowered_resolveConformer d i
        · intro s hs
          cases hs
          exact isLowered_pyLower _
        · intro s hs; cases hs
        · intro s hs; cases hs
        · intro s hs; cases hs
        · intro s hs
          cases hs
          exact isLowered_resolveScan d i
        · intro h1 _
          exact absurd h1 hlot
      · split at hok
        · have hcfg : cfg =
              { conformer_level := some (resolveConformer d i),
                composite_method := none,
                opt_level := some (String.mk
                  ((splitDSlash (pyLower i.level_of_theory).data).getD 1 [])),
                freq_level := some (String.mk
                  ((splitDSlash (pyLower i.level_of_theory).data).getD 1 [])),
                sp_level := some (String.mk
                  ((splitDSlash (pyLower i.level_of_theory).data).headD [])),
                scan_level := some (resolveScan d i),
                model_chemistry := i.model_chemistry } := by
            cases hok; rfl
          subst hcfg
          refine ⟨?_, ?_, ?_, ?_, ?_, ?_, ?_⟩
          · intro s hs
            cases hs
            exact isLowered_resolveConformer d i
          · intro s hs; cases hs
          · intro s hs
            cases hs
            exact isLowered_splitDSlash_getD _ 1
          · intro s hs
            cases hs
            exact isLowered_splitDSlash_getD _ 1
          · intro s hs
            cases hs
            exact isLowered_splitDSlash_headD _
          · intro s hs
            cases hs
            exact isLowered_resolveScan d i
          · intro h1 _
            exact absurd h1 hlot
        · have hcfg : cfg =
              { conformer_level := some (resolveConformer d i),
                composite_method := none,
                opt_level := some (pyLower i.level_of_theory),
                freq_level := some (pyLower i.level_of_theory),
                sp_level := some (pyLower i.level_of_theory),
                scan_level := some (resolveScan d i),
                model_chemistry := i.model_chemistry } := by
            cases hok; rfl
          subst hcfg
          refine ⟨?_, ?_, ?_, ?_, ?_, ?_, ?_⟩
          · intro s hs
            cases hs
            exact isLowered_resolveConformer d i
          · intro s hs; cases hs
          · intro s hs
            cases hs
            exact isLowered_pyLower _
          · intro s hs
            cases hs
            exact isLowered_pyLower _
          · intro s hs
            cases hs
            exact isLowered_pyLower _
          · intro s hs
            cases hs
            exact isLowered_resolveScan d i
          · intro h1 _
            exact absurd h1 hlot
    · split at hok
      · exact absurd hok (by simp)
      · rename_i mc1 heq1
        split at hok
        · exact absurd hok (by simp)
        · rename_i sp mc2 heq2
          have hcfg : cfg =
              { conformer_level := some (resolveConformer d i),
                composite_method := some (pyLower i.composite_method),
                opt_level := some (resolveOpt d i (pyLower i.composite_method)),
                freq_level := some (resolveFreq d i (pyLower i.composite_method)),
                sp_level := some sp,
                scan_level := some (resolveScan d i),
                model_chemistry := mc2 } := by
            cases hok; rfl
          subst hcfg
          obtain ⟨hsp, hmc⟩ := resolveSp_ok_lowered heq2
          refine ⟨?_, ?_, ?_, ?_, ?_, ?_, ?_⟩
          · intro s hs
            cases hs
            exact isLowered_resolveConformer d i
          · intro s hs
            cases hs
            exact isLowered_pyLower _
          · intro s hs
            cases hs
            exact isLowered_resolveOpt d i _
          · intro s hs
            cases hs
            exact isLowered_resolveFreq d i _
          · intro s hs
            cases hs
            exact hsp
          · intro s hs
            cases hs
            exact isLowered_resolveScan d i
          · intro _ h2
            refine hmc ?_
            rcases h2 with hc | hc
            · exact Or.inl hc
            · exact Or.inr (by rw [hc]; rfl)

/-- Witness for C9 (amended), at `D0` and `I7`: the resolved opt level
b3lyp/6-31g* is fully lowercased. -/
theorem claim_C9_amended_witness : isLowered "b3lyp/6-31g*" :=
  (claim_C9_amended D0 I7 cfg7 rfl).2.2.1 "b3lyp/6-31g*" rfl

/-- A list containing an entry that is not an RMG `Species` makes the
rmg_species_list validation of `ARC.__init__` raise. -/
theorem checkRmgList_error_of_bad {l : List PyObj}
    (h : ∃ x ∈ l, x.isRmgSpecies = false) :
    ∃ e, checkRmgList l = .error e := by
  induction l with
  | nil =>
    rcases h with ⟨x, hx, _⟩
    cases hx
  | cons a rest ih =>
    rcases h with ⟨x, hx, hxs⟩
    cases a with
    | rmgSpecies label =>
      have hxrest : x ∈ rest := by
        rcases List.mem_cons.mp hx with rfl | h'
        · simp [PyObj.isRmgSpecies] at hxs
        · exact h'
      rw [show checkRmgList (PyObj.rmgSpecies label :: rest)
            = if label = "" then
                Except.error (ArcError.inputError "Missing label on RMG Species object")
              else match checkRmgList rest with
                | .error e => Except.error e
                | .ok conv => Except.ok (PyObj.arcSpecies label :: conv) from rfl]
      by_cases hl : label = ""
      · exact ⟨_, by rw [if_pos hl]⟩
      · rw [if_neg hl]
        obtain ⟨e, he⟩ := ih ⟨x, hxrest, hxs⟩
        rw [he]
        exact ⟨e, rfl⟩
    | arcSpecies label => exact ⟨_, rfl⟩
    | rmgReaction label => exact ⟨_, rfl⟩
    | other descr => exact ⟨_, rfl⟩

/-- A list containing an entry that is not an `ARCSpecies` makes the
species validation of `ARC.execute` raise. -/
theorem checkArcSpeciesList_error_of_bad {l : List PyObj}
    (h : ∃ x ∈ l, x.isArcSpecies = false) :
    ∃ e, checkArcSpeciesList l = .error e := by
  induction l with
  | nil =>
    rcases h with ⟨x, hx, _⟩
    cases hx
  | cons a rest ih =>
    rcases h with ⟨x, hx, hxs⟩
    unfold checkArcSpeciesList
    by_cases ha : a.isArcSpecies = true
    · rw [if_pos ha]
      refine ih ⟨x, ?_, hxs⟩
      rcases List.mem_cons.mp hx with rfl | h'
      · rw [ha] at hxs; cases hxs
      · exact h'
    · rw [if_neg ha]
      exact ⟨_, rfl⟩

/-- A list containing an entry that is not an RMG `Reaction` makes the
reaction validation of `ARC.execute` raise. -/
theorem checkRxnList_error_of_bad {l : List PyObj}
    (h : ∃ x ∈ l, x.isRmgReaction = false) :
    ∃ e, checkRxnList l = .error e := by
  induction l with
  | nil =>
    rcases h with ⟨x, hx, _⟩
    cases hx
  | cons a rest ih =>
    rcases h with ⟨x, hx, hxs⟩
    unfold checkRxnList
    by_cases ha : a.isRmgReaction = true
    · rw [if_pos ha]
      refine ih ⟨x, ?_, hxs⟩
      rcases List.mem_cons.mp hx with rfl | h'
      · rw [ha] at hxs; cases hxs
      · exact h'
    · rw [if_neg ha]
      exact ⟨_, rfl⟩

/-- Claim C8: whenever any entry of rmg_species_list is not an RMG Species,
or any entry of arc_species_list is not an ARCSpecies, or any entry of
rxn_list is not an RMG Reaction, the run raises (InputError in __init__ for
the rmg list, ValueError in execute for the other two) and never reaches
the Scheduler: runARC produces no SchedulerCall. The configuration part of
__init__ is assumed to succeed so that the failure is attributable to the
list validation. -/
theorem claim_C8 (d : Defaults) (i : ARCInput) (rmg arcs rxns : List PyObj)
    (cfg : Config) (hinit : arcInit d i = .ok cfg)
    (hbad : (∃ x ∈ rmg, x.isRmgSpecies = false) ∨
            (∃ x ∈ arcs, x.isArcSpecies = false) ∨
            (∃ x ∈ rxns, x.isRmgReaction = false)) :
    (runARC d i rmg arcs rxns).isOk = false := by
  unfold runARC arcInitFull
  rw [hinit]
  cases hr : checkRmgList rmg with
  | error e => rfl
  | ok conv =>
    show (execute cfg (arcs ++ conv) rxns).isOk = false
    unfold execute
    cases hca : checkArcSpeciesList (arcs ++ conv) with
    | error e => rfl
    | ok u =>
      cases hcr : checkRxnList rxns with
      | error e => rfl
      | ok u2 =>
        exfalso
        rcases hbad with hb | hb | hb
        · obtain ⟨e, he⟩ := checkRmgList_error_of_bad hb
          rw [he] at hr
          cases hr
        · obtain ⟨x, hx, hxs⟩ := hb
          obtain ⟨e, he⟩ := checkArcSpeciesList_error_of_bad
            ⟨x, List.mem_append_left _ hx, hxs⟩
          rw [he] at hca
          cases hca
        · obtain ⟨e, he⟩ := checkRxnList_error_of_bad hb
          rw [he] at hcr
          cases hcr

/-- Witness for C8: with a well-resolved configuration but a plain
(non-Species) object in rmg_species_list, the run fails before the
Scheduler is constructed. -/
theorem claim_C8_witness :
    (runARC D0 I7 [PyObj.other "a string"] [] []).isOk = false :=
  claim_C8 D0 I7 [PyObj.other "a string"] [] [] cfg7 rfl
    (Or.inl ⟨PyObj.other "a string", List.mem_singleton_self _, rfl⟩)

end ArcVerify
